import Mathlib

/-!
Verification of the `pynut3` NUT client (`src/pynut3/nut3.py`) against its
natural-language specification.

The development shallowly embeds the protocol engine of `PyNUT3Client`:

* `parse3` / `validateParts` / `validateCmd` — the grammar validation at the
  top of `cmd` (nut3.py lines 222-246), including the `KeyError` that Python
  raises when `SUPPORTED[main_cmd]` is looked up for a key that is absent.
* `frameLine` / `cmdFrame` — the response-filtering loop of `cmd`
  (nut3.py lines 257-268).
* `cmdRun` — validation, the wire write, and framing combined, with an
  explicit trace of transport operations.
* `connectModel` — `_connect` (nut3.py lines 148-173).
* `get_devicesModel`, `get_varsModel`, `buildDeviceRec` — `_get_devices`,
  `_get_vars` and the inventory construction in `__init__`.
* `updateModel` — `update` (nut3.py lines 308-310).

Python exceptions are modelled by the `PyErr` type: `pynut3` is the typed
`PyNUT3Error`, while `keyError`, `indexError` and `runtimeError` stand for
the untyped built-in exceptions that can escape the client.  Python `dict`s
are modelled as insertion-ordered association lists (`dictInsert`).
-/

/-- Python exceptions observable from the client: the library's own
`PyNUT3Error` plus the relevant built-in exception kinds. -/
inductive PyErr where
  | pynut3 (msg : String)
  | keyError (key : String)
  | indexError (idx : Nat)
  | runtimeError (msg : String)
deriving DecidableEq

deriving instance DecidableEq for Except

/-- True exactly when a result is a rejection carried by the library's typed
`PyNUT3Error` (as opposed to success or an untyped built-in exception). -/
def isPyNUT3Rejection {α : Type} : Except PyErr α → Bool
  | .error (.pynut3 _) => true
  | _ => false

/-- Splitter used to model Python's `str.split(sep)` with an explicit
one-character separator: empty fields are kept, and splitting the empty
string yields `[""]`. -/
def splitSepAux (sep : Char) : List Char → List Char → List (List Char)
  | [], cur => [cur]
  | c :: cs, cur =>
    if c = sep then cur :: splitSepAux sep cs []
    else splitSepAux sep cs (cur ++ [c])

/-- Python's `s.split(sep)` for a one-character separator. -/
def pySplit (s : String) (sep : Char) : List String :=
  (splitSepAux sep s.data []).map String.mk

/-- First field of Python's `s.split(" ")`; the split list is never empty,
so `_s.split(" ")[0]` never raises. -/
def firstTok (s : String) : String :=
  (pySplit s ' ').headD ""

/-- Replacement engine for Python's `str.replace` (leftmost, non-overlapping
occurrences); the fuel argument is the length of the subject string. -/
def replaceAux : Nat → List Char → List Char → List Char → List Char
  | 0, l, _, _ => l
  | _ + 1, [], _, _ => []
  | n + 1, c :: cs, pat, repl =>
    if pat ≠ [] ∧ List.isPrefixOf pat (c :: cs) then
      repl ++ replaceAux n (List.drop pat.length (c :: cs)) pat repl
    else c :: replaceAux n cs pat repl

/-- Python's `s.replace(pat, repl)`. -/
def pyReplace (s pat repl : String) : String :=
  String.mk (replaceAux s.data.length s.data pat.data repl.data)

/-- Python's no-argument `str.split()` restricted to space-separated input:
runs of separators are collapsed and empty fields dropped. -/
def pySplitWs (s : String) : List String :=
  (pySplit s ' ').filter (fun t => t ≠ "")

/-- Tokenizer modelling Python's `shlex.split` in POSIX mode for the inputs
this client receives (no backslash escapes, no unterminated quotes):
whitespace separates tokens, and single- or double-quoted segments keep
their content verbatim with the quotes removed.  The second argument is
`some q` while scanning inside a quote, the third the current token, the
fourth whether a token is in progress. -/
def shlexAux : List Char → Option Char → List Char → Bool → List (List Char)
  | [], none, cur, inTok => if inTok then [cur] else []
  | [], some _, cur, _ => [cur]
  | c :: cs, some q, cur, _ =>
    if c = q then shlexAux cs none cur true
    else shlexAux cs (some q) (cur ++ [c]) true
  | c :: cs, none, cur, inTok =>
    if c = ' ' then
      (if inTok then cur :: shlexAux cs none [] false else shlexAux cs none [] false)
    else if c = '"' ∨ c = '\'' then shlexAux cs (some c) cur true
    else shlexAux cs none (cur ++ [c]) true

/-- Python's `shlex.split(s)` as used by `_get_devices` and `_get_vars`. -/
def shlexSplit (s : String) : List String :=
  (shlexAux s.data none [] false).map String.mk

/-- Insertion-ordered Python `dict` assignment `d[k] = v`: an existing key
keeps its position and gets the new value, a new key is appended. -/
def dictInsert {α : Type} (m : List (String × α)) (k : String) (v : α) : List (String × α) :=
  if (m.map Prod.fst).contains k then
    m.map (fun p => if p.1 = k then (k, v) else p)
  else m ++ [(k, v)]

/-- Python `dict` lookup returning `none` for a missing key. -/
def alookup {α : Type} : List (String × α) → String → Option α
  | [], _ => none
  | (k, v) :: m, j => if k = j then some v else alookup m j

/-- Overwrite the value stored under an existing key, leaving the list
unchanged when the key is absent (models `m[k][0] = v` style in-place
mutation of an entry that is already present). -/
def setVal {α : Type} : List (String × α) → String → α → List (String × α)
  | [], _, _ => []
  | (k, v) :: m, j, w =>
    if k = j then (k, w) :: setVal m j w else (k, v) :: setVal m j w

/-- Key list of an association-list dictionary. -/
def keysOf {α : Type} (m : List (String × α)) : List String :=
  m.map Prod.fst

/- ----------------------------------------------------------------- -/
/- Static grammar table (nut3.py lines 62-66).                        -/
/- ----------------------------------------------------------------- -/

/-- `SUPPORTED["commands"]`: the client-side supported main commands. -/
def SUPPORTED_commands : List String :=
  ["VER", "HELP", "LOGOUT", "LIST", "PROTVER"]

/-- `SUPPORTED["LIST"]`: sub-commands of `LIST`; a trailing `%` marks a
sub-command that requires an additional parameter. -/
def SUPPORTED_LIST : List String :=
  ["CLIENT %", "CMD %", "RW %", "UPS", "VAR %"]

/-- Lookup in the `SUPPORTED` dict; `none` models the `KeyError` that
`SUPPORTED[main_cmd]` raises for any key other than `"commands"` and
`"LIST"`. -/
def supportedLookup (k : String) : Option (List String) :=
  if k = "commands" then some SUPPORTED_commands
  else if k = "LIST" then some SUPPORTED_LIST
  else none

/-- Message of the server-side rejection in `cmd`. -/
def notServerMsg (main : String) : String :=
  main ++ " is not supported by the server."

/-- Message of the client-side main-command rejection in `cmd`. -/
def notClientMsg (main : String) : String :=
  "\x27" ++ main ++ "\x27 is not supported by pynut3."

/-- Message of the sub-command rejection (sub-command with no parameter). -/
def badSubMsg (main sub : String) : String :=
  "\x27" ++ main ++ " " ++ sub ++ "\x27 is not supported by pynut3."

/-- Message of the sub-command rejection (sub-command with a parameter). -/
def badSubParMsg (main sub par : String) : String :=
  "\x27" ++ main ++ " " ++ sub ++ " " ++ par ++ "\x27 is not supported by pynut3."

/-- Split a command string into `MAIN`, `SUB`, `PARAM` exactly as `cmd`
does: `command.split(" ")` with missing fields defaulting to `""`
(nut3.py lines 222-231). -/
def parse3 (command : String) : String × String × String :=
  let l := pySplit command ' '
  (l.headD "", (l.drop 1).headD "", (l.drop 2).headD "")

/-- Grammar validation performed by `cmd` before any I/O
(nut3.py lines 233-246).  Note that evaluating `SUPPORTED[main_cmd]` for a
main command without a sub-command table raises an untyped `KeyError`. -/
def validateParts (valid : List String) (main sub par : String) : Except PyErr Unit :=
  if main ∉ valid then .error (.pynut3 (notServerMsg main))
  else if main ∉ SUPPORTED_commands then .error (.pynut3 (notClientMsg main))
  else if sub ≠ "" ∧ par = "" then
    match supportedLookup main with
    | none => .error (.keyError main)
    | some l => if sub ∉ l then .error (.pynut3 (badSubMsg main sub)) else .ok ()
  else if sub ≠ "" ∧ par ≠ "" then
    match supportedLookup main with
    | none => .error (.keyError main)
    | some l =>
      if (sub ++ " %") ∉ l then .error (.pynut3 (badSubParMsg main sub par)) else .ok ()
  else .ok ()

/-- Validation of a raw command string. -/
def validateCmd (valid : List String) (command : String) : Except PyErr Unit :=
  validateParts valid (parse3 command).1 (parse3 command).2.1 (parse3 command).2.2

/-- The spec's grammar rule for a `LIST` command, stated in the spec's own
words for comparison with `validateParts`: with no `SUB` the shape matches
trivially; a `SUB` with no `PARAM` must appear verbatim in the static
sub-command list; a `SUB` with a `PARAM` must appear as `"SUB %"`. -/
def shapeMatchesLIST (sub par : String) : Prop :=
  sub = "" ∨ (par = "" ∧ sub ∈ SUPPORTED_LIST) ∨ (par ≠ "" ∧ (sub ++ " %") ∈ SUPPORTED_LIST)

/-- One pass of the response-filtering loop of `cmd`
(nut3.py lines 259-267): a line whose first token is `BEGIN` or `END` is
blanked, the echoed `"SUB PAR "` fragment is removed, carriage returns are
stripped, and a line that is empty before the carriage-return strip is not
collected. -/
def frameLine (sub par : String) (s0 : String) : Option String :=
  let s1 := if firstTok s0 = "BEGIN" then "" else s0
  let s2 := if firstTok s1 = "END" then "" else s1
  let s3 := if s2 ≠ "" then pyReplace s2 (sub ++ " " ++ par ++ " ") "" else s2
  if s3 ≠ "" then some (pyReplace s3 "\x0d" "") else none

/-- The response framer of `cmd` applied to the raw line list returned by
`_read` (nut3.py lines 257-268). -/
def cmdFrame (sub par : String) (lines : List String) : List String :=
  lines.filterMap (frameLine sub par)

/-- Observable transport operations of one `cmd` call. -/
inductive WireOp where
  | connect
  | write (s : String)
  | disconnect
deriving DecidableEq

/-- One full `cmd` call (nut3.py lines 210-268): grammar validation, then —
only if validation succeeded — the optional non-persistent connect, the
single wire write of the command, the optional disconnect, and the framing
of the server's raw response lines.  The second component is the trace of
transport operations performed. -/
def cmdRun (valid : List String) (persistent : Bool) (command : String)
    (response : List String) : Except PyErr (List String) × List WireOp :=
  match validateCmd valid command with
  | .error e => (.error e, [])
  | .ok _ =>
    ((.ok (cmdFrame (parse3 command).2.1 (parse3 command).2.2 response)),
      (if persistent then [] else [.connect]) ++ [.write command] ++
        (if persistent then [] else [.disconnect]))

/-- Result of a `cmd` call on a persistent session. -/
def cmdResult (valid : List String) (command : String) (response : List String) :
    Except PyErr (List String) :=
  (cmdRun valid true command response).1

/-- A server-reported command list as produced by `help()` plus the
`PROTVER` entry appended in `__init__`; used as a concrete session
capability list in scenario theorems. -/
def demoValidCmds : List String :=
  ["HELP", "VER", "GET", "LIST", "SET", "INSTCMD", "LOGOUT", "LOGIN",
   "MASTER", "USERNAME", "PASSWORD", "STARTTLS", "PROTVER"]

/- ----------------------------------------------------------------- -/
/- Payload extraction and inventory (nut3.py lines 270-331).          -/
/- ----------------------------------------------------------------- -/

/-- Loop body of `_get_devices` (nut3.py lines 285-287): each framed line is
shell-tokenized and `_dict[_ups[1]] = _ups[2]` is executed; a line with
fewer than three tokens raises an untyped `IndexError` (Python evaluates
the right-hand side `_ups[2]` first). -/
def get_devicesLoop : List String → List (String × String) → Except PyErr (List (String × String))
  | [], d => .ok d
  | line :: rest, d =>
    match (shlexSplit line).get? 2 with
    | none => .error (.indexError 2)
    | some v =>
      match (shlexSplit line).get? 1 with
      | none => .error (.indexError 1)
      | some k => get_devicesLoop rest (dictInsert d k v)

/-- `_get_devices` (nut3.py lines 276-288): run `cmd "LIST UPS"` on the
given raw server response and build the name-to-description dict. -/
def get_devicesModel (valid : List String) (response : List String) :
    Except PyErr (List (String × String)) := do
  let lines ← cmdResult valid "LIST UPS" response
  get_devicesLoop lines []

/-- Loop body of `_get_vars` (nut3.py lines 301-305): each framed line is
shell-tokenized into `_kv`, then `_dict[_kv[0]] = [_kv[1].replace('"',''),
_type]`; a line with fewer than two tokens raises an untyped `IndexError`. -/
def get_varsLoop (t : String) : List String → List (String × String × String) →
    Except PyErr (List (String × String × String))
  | [], d => .ok d
  | line :: rest, d =>
    match (shlexSplit line).get? 0 with
    | none => .error (.indexError 0)
    | some k =>
      match (shlexSplit line).get? 1 with
      | none => .error (.indexError 1)
      | some v => get_varsLoop t rest (dictInsert d k (pyReplace v "\x22" "", t))

/-- `_get_vars` (nut3.py lines 290-306): each entry is the pair of the
current value and the access tag, `"rw"` for `sub = "RW"` and `"r-"`
otherwise. -/
def get_varsModel (valid : List String) (sub dev : String) (response : List String) :
    Except PyErr (List (String × String × String)) := do
  let lines ← cmdResult valid ("LIST " ++ sub ++ " " ++ dev) response
  get_varsLoop (if sub = "RW" then "rw" else "r-") lines []

/-- `_get_commands` (nut3.py lines 270-274): despite its dict annotation it
returns the framed line list of `LIST CMD <device>` unchanged. -/
def get_commandsModel (valid : List String) (dev : String) (response : List String) :
    Except PyErr (List String) :=
  cmdResult valid ("LIST CMD " ++ dev) response

/-- One device's record as built in `__init__` (nut3.py lines 125-129):
the `commands` line list and the two separate variable dicts `vars`
(from `LIST VAR`) and `rw` (from `LIST RW`). -/
structure DeviceRec where
  commands : List String
  vars : List (String × String × String)
  rw : List (String × String × String)
deriving DecidableEq

/-- The per-device part of session construction (nut3.py lines 125-129),
given the raw server responses of the three `LIST` requests. -/
def buildDeviceRec (valid : List String) (dev : String)
    (cmdResp varResp rwResp : List String) : Except PyErr DeviceRec := do
  let cs ← get_commandsModel valid dev cmdResp
  let vs ← get_varsModel valid "VAR" dev varResp
  let rs ← get_varsModel valid "RW" dev rwResp
  .ok ⟨cs, vs, rs⟩

/-- Loop of `update` (nut3.py lines 309-310): for each freshly fetched
variable, `self.devices[device]['vars'][k][0] = v[0]` overwrites the stored
value in place, keeping the stored access tag; a fresh key that is not
already stored raises an untyped `KeyError`, leaving the mutations made so
far in place. -/
def updateVarsLoop : List (String × String × String) → List (String × String × String) →
    Option String × List (String × String × String)
  | [], m => (none, m)
  | (k, v) :: rest, m =>
    match alookup m k with
    | some w => updateVarsLoop rest (setVal m k (v.1, w.2))
    | none => (some k, m)

/-- `update(device)` (nut3.py lines 308-310): fetch the fresh `LIST VAR`
dict for the device and overwrite stored values; the second component is
the device record after the call (unchanged when `_get_vars` itself
raised). -/
def updateModel (valid : List String) (dev : String) (rec : DeviceRec)
    (response : List String) : Option PyErr × DeviceRec :=
  match get_varsModel valid "VAR" dev response with
  | .error e => (some e, rec)
  | .ok fresh =>
    match updateVarsLoop fresh rec.vars with
    | (none, m) => (none, { rec with vars := m })
    | (some k, m) => (some (.keyError k), { rec with vars := m })

/- ----------------------------------------------------------------- -/
/- Connection setup (nut3.py lines 148-173).                          -/
/- ----------------------------------------------------------------- -/

/-- The `PASSWORD` half of `_connect` (nut3.py lines 166-171).  The
accumulated write trace and the child handle are threaded through; the
original `LOGIN ERROR` is swallowed by the surrounding `except` clause,
which re-raises `PyNUT3Error("Something went wrong!")`. -/
def connectPw (pw : Option String) (pwReply : List String) (child : Option Unit)
    (w : List String) : Except PyErr Unit × Option Unit × List String :=
  match pw with
  | some p =>
    if p = "" then (.ok (), child, w)
    else if pwReply.contains "OK" then (.ok (), child, w ++ ["PASSWORD " ++ p])
    else (.error (.pynut3 "Something went wrong!"), child, w ++ ["PASSWORD " ++ p])
  | none => (.ok (), child, w)

/-- `_connect` (nut3.py lines 148-173) with the transport spawn assumed to
succeed: the child handle is set, then each supplied credential (`if
self._login:` / `if self._password:` are truthiness checks, so an empty
string counts as absent) is written as its own command and its reply list
must contain a line equal to `OK`;
on failure the `PyNUT3Error` raised inside the `try` block is caught by
`except Exception` and replaced by `PyNUT3Error("Something went wrong!")`,
and the child handle is left untouched (no teardown).  The components are
the call result, the child handle after the call, and the write trace. -/
def connectModel (login pw : Option String) (loginReply pwReply : List String) :
    Except PyErr Unit × Option Unit × List String :=
  match login with
  | some l =>
    if l = "" then connectPw pw pwReply (some ()) []
    else if loginReply.contains "OK" then connectPw pw pwReply (some ()) ["USERNAME " ++ l]
    else (.error (.pynut3 "Something went wrong!"), some (), ["USERNAME " ++ l])
  | none => connectPw pw pwReply (some ()) []

/- ----------------------------------------------------------------- -/
/- help() and the start of __init__ (nut3.py lines 118-121, 315-323). -/
/- ----------------------------------------------------------------- -/

/-- `help()` (nut3.py lines 315-323): `result[0].split()[1:]`; an empty
framed result raises an untyped `IndexError` at index 0. -/
def helpModel (valid : List String) (response : List String) : Except PyErr (List String) := do
  let result ← cmdResult valid "HELP" response
  match result with
  | [] => .error (.indexError 0)
  | r0 :: _ => .ok ((pySplitWs r0).drop 1)

/-- The `valid_commands` construction in `__init__` (nut3.py lines
118-121): the list starts as `["HELP"]`, is replaced by the `help()`
result, and `PROTVER` is appended. -/
def initValidCommands (helpResponse : List String) : Except PyErr (List String) := do
  let vc ← helpModel ["HELP"] helpResponse
  .ok (vc ++ ["PROTVER"])

/- ----------------------------------------------------------------- -/
/- Helper lemmas about the framer.                                    -/
/- ----------------------------------------------------------------- -/

/-- A line whose first token is `BEGIN` is blanked and dropped by the
filtering loop of `cmd`. -/
theorem frameLine_begin (sub par b : String) (hb : firstTok b = "BEGIN") :
    frameLine sub par b = none := by
  simp [frameLine, hb]

/-- A line whose first token is `END` is blanked and dropped by the
filtering loop of `cmd`. -/
theorem frameLine_end (sub par e : String) (he : firstTok e = "END") :
    frameLine sub par e = none := by
  simp [frameLine, he]

/- ----------------------------------------------------------------- -/
/- C1 — framing of a BEGIN/END block with leading noise.              -/
/- ----------------------------------------------------------------- -/

/-- C1 (counterexample): the claim says leading noise collected before the
`BEGIN` line is dropped, but on the raw lines `noise / BEGIN LIST UPS /
line1 / line2 / END LIST UPS` the filtering loop of `cmd` (for the request
`LIST UPS`) returns `[noise, line1, line2]`, not `[line1, line2]`: there is
no reset when a `BEGIN` line is seen. -/
theorem c1_cex :
    cmdFrame "UPS" "" ["noise", "BEGIN LIST UPS", "line1", "line2", "END LIST UPS"] ≠
      ["line1", "line2"] ∧
    cmdFrame "UPS" "" ["noise", "BEGIN LIST UPS", "line1", "line2", "END LIST UPS"] =
      ["noise", "line1", "line2"] := by
  decide

/-- C1 (amended): for every raw line sequence of the form noise-lines
followed by `BEGIN X`, line1, line2, `END X`, the response framer of `cmd`
discards the `BEGIN` and `END` lines but keeps everything collected before
the `BEGIN` line: the result is the framed noise followed by
`[line1, line2]` (for payload lines that the echo-stripping leaves
unchanged), not `[line1, line2]` alone. -/
theorem c1_frame_keeps_noise (sub par b e l1 l2 : String) (noise : List String)
    (hb : firstTok b = "BEGIN") (he : firstTok e = "END")
    (h1 : frameLine sub par l1 = some l1) (h2 : frameLine sub par l2 = some l2) :
    cmdFrame sub par (noise ++ [b, l1, l2, e]) = cmdFrame sub par noise ++ [l1, l2] := by
  have hbn := frameLine_begin sub par b hb
  have hen := frameLine_end sub par e he
  simp [cmdFrame, List.filterMap_append, hbn, hen, h1, h2]

/-- C1 (witness): the amended framing theorem applied to the concrete raw
lines of the counterexample. -/
theorem c1_witness :
    cmdFrame "UPS" "" (["noise"] ++ ["BEGIN LIST UPS", "line1", "line2", "END LIST UPS"]) =
      cmdFrame "UPS" "" ["noise"] ++ ["line1", "line2"] :=
  c1_frame_keeps_noise "UPS" "" "BEGIN LIST UPS" "END LIST UPS" "line1" "line2" ["noise"]
    (by decide) (by decide) (by decide) (by decide)

/- ----------------------------------------------------------------- -/
/- C4 — the LIST UPS scenario.                                        -/
/- ----------------------------------------------------------------- -/

/-- C4: when the server answers `LIST UPS` with `BEGIN LIST UPS`,
`UPS ups1 "Test UPS"`, `END LIST UPS`, the device-listing operation
`_get_devices` returns exactly the one-entry map from `"ups1"` to
`"Test UPS"`, the quoted description returned without its quotes even
though it contains a space. -/
theorem c4_list_ups_scenario :
    get_devicesModel demoValidCmds
        ["BEGIN LIST UPS", "UPS ups1 \x22Test UPS\x22", "END LIST UPS"] =
      .ok [("ups1", "Test UPS")] := by
  decide

/- ----------------------------------------------------------------- -/
/- C5 — validation failure precedes any transport operation.          -/
/- ----------------------------------------------------------------- -/

/-- C5: whenever grammar validation rejects a command, `cmd` surfaces that
validation error and the transport trace is empty: nothing is connected,
written, or disconnected, whatever the server's pending response and
whatever the persistence mode. -/
theorem c5_validation_blocks_wire (valid : List String) (persistent : Bool)
    (command : String) (response : List String) (e : PyErr)
    (h : validateCmd valid command = .error e) :
    cmdRun valid persistent command response = (.error e, []) := by
  simp [cmdRun, h]

/-- C5 (witness): the unsupported sub-command request `LIST FOO ups1` is
rejected with the typed unsupported-sub-command `PyNUT3Error` and produces
an empty transport trace. -/
theorem c5_witness :
    cmdRun demoValidCmds false "LIST FOO ups1" ["BEGIN LIST FOO ups1"] =
      (.error (.pynut3 (badSubParMsg "LIST" "FOO" "ups1")), []) :=
  c5_validation_blocks_wire demoValidCmds false "LIST FOO ups1" ["BEGIN LIST FOO ups1"]
    (.pynut3 (badSubParMsg "LIST" "FOO" "ups1")) (by decide)

/- ----------------------------------------------------------------- -/
/- C10 — empty HELP response during session construction.             -/
/- ----------------------------------------------------------------- -/

/-- C10: if the server's response to `HELP` during session construction is
an empty line list (for example a read that timed out with nothing
collected), the `valid_commands` construction of `__init__` fails with an
untyped `IndexError` from `result[0]`, not with the client's typed
`PyNUT3Error`. -/
theorem c10_empty_help_indexerror :
    initValidCommands [] = .error (.indexError 0) ∧
    isPyNUT3Rejection (initValidCommands []) = false := by
  decide

/- ----------------------------------------------------------------- -/
/- C2 — grammar validation for MAIN SUB PARAM shapes.                 -/
/- ----------------------------------------------------------------- -/

/-- C2 (counterexample): the claim says a rejected sub-command always
surfaces as the specific typed unsupported-sub-command error, but for the
supported main command `VER` (with `VER` in the server-reported list) a
present sub-command makes `cmd` evaluate `SUPPORTED["VER"]`, which raises
an untyped `KeyError`, not a `PyNUT3Error`. -/
theorem c2_cex :
    validateParts demoValidCmds "VER" "FOO" "" = .error (.keyError "VER") ∧
    isPyNUT3Rejection (validateParts demoValidCmds "VER" "FOO" "") = false := by
  decide

/-- C2 (amended): for `MAIN = LIST` — the only supported main command with
an entry in the static sub-command table — validation accepts a command
exactly when its `(SUB, PARAM)` shape matches the grammar table (`SUB`
verbatim for no parameter, `"SUB %"` for a parameter), and otherwise
rejects it with the specific typed unsupported-sub-command `PyNUT3Error`;
for the other supported main commands a present sub-command instead raises
an untyped `KeyError` (see the counterexample). -/
theorem c2_list_grammar (valid : List String) (sub par : String) (hs : "LIST" ∈ valid) :
    (validateParts valid "LIST" sub par = .ok () ↔ shapeMatchesLIST sub par) ∧
    (sub ≠ "" → par = "" → sub ∉ SUPPORTED_LIST →
      validateParts valid "LIST" sub par = .error (.pynut3 (badSubMsg "LIST" sub))) ∧
    (sub ≠ "" → par ≠ "" → (sub ++ " %") ∉ SUPPORTED_LIST →
      validateParts valid "LIST" sub par = .error (.pynut3 (badSubParMsg "LIST" sub par))) := by
  have hv : ¬ ("LIST" ∉ valid) := by simpa using hs
  have hc : ¬ (("LIST" : String) ∉ SUPPORTED_commands) := by decide
  have hls : supportedLookup "LIST" = some SUPPORTED_LIST := by rfl
  unfold validateParts
  rw [if_neg hv, if_neg hc, hls]
  by_cases h1 : sub = ""
  · subst h1
    simp [shapeMatchesLIST]
  · by_cases h2 : par = ""
    · subst h2
      by_cases h3 : sub ∈ SUPPORTED_LIST <;>
        simp [h1, h3, shapeMatchesLIST]
    · by_cases h3 : (sub ++ " %") ∈ SUPPORTED_LIST <;>
        simp [h1, h2, h3, shapeMatchesLIST]

/-- C2 (witness): the amended validation theorem applied to the concrete
ill-shaped request `LIST FOO ups1`. -/
theorem c2_witness :
    validateParts demoValidCmds "LIST" "FOO" "ups1" =
      .error (.pynut3 (badSubParMsg "LIST" "FOO" "ups1")) :=
  (c2_list_grammar demoValidCmds "FOO" "ups1" (by decide)).2.2
    (by decide) (by decide) (by decide)

/- ----------------------------------------------------------------- -/
/- C3 — missing BEGIN echo on LIST responses.                         -/
/- ----------------------------------------------------------------- -/

/-- Validation of the fixed request `LIST UPS` succeeds whenever the
server-reported command list contains `LIST`. -/
theorem validateCmd_LIST_UPS (valid : List String) (hv : "LIST" ∈ valid) :
    validateCmd valid "LIST UPS" = .ok () := by
  have hv' : ¬ ("LIST" ∉ valid) := by simpa using hv
  show validateParts valid "LIST" "UPS" "" = .ok ()
  unfold validateParts
  rw [if_neg hv']
  rfl

/-- C3 (counterexample): the claim says a `LIST` response whose first line
is not `BEGIN <echo>` raises the typed unexpected-response protocol error;
but on the reply `ERR ACCESS-DENIED` to `LIST UPS`, `cmd` raises no
protocol error at all and `_get_devices` fails with an untyped
`IndexError` while tokenizing the line. -/
theorem c3_cex :
    get_devicesModel demoValidCmds ["ERR ACCESS-DENIED"] = .error (.indexError 2) ∧
    isPyNUT3Rejection (get_devicesModel demoValidCmds ["ERR ACCESS-DENIED"]) = false := by
  decide

/-- C3 (amended): `cmd` performs no `BEGIN`-echo check whatsoever: a
`LIST UPS` response consisting of a single well-formed `UPS` line and no
`BEGIN`/`END` framing at all is processed like ordinary payload and its
device entry is committed to the returned inventory; a malformed first
line instead raises an untyped `IndexError` (see the counterexample), and
in neither case is a typed unexpected-response error raised. -/
theorem c3_no_begin_check (valid : List String) (line n d : String) (hv : "LIST" ∈ valid)
    (hl : frameLine "UPS" "" line = some line)
    (ht : shlexSplit line = ["UPS", n, d]) :
    get_devicesModel valid [line] = .ok [(n, d)] := by
  have hok := validateCmd_LIST_UPS valid hv
  have hp : parse3 "LIST UPS" = ("LIST", "UPS", "") := rfl
  unfold get_devicesModel cmdResult cmdRun
  rw [hok]
  simp [hp, cmdFrame, hl, Bind.bind, Except.bind, get_devicesLoop, ht, List.get?, dictInsert,
    keysOf]

/-- C3 (witness): the amended theorem applied to a concrete unframed
response: the device entry is committed even though no `BEGIN` line was
ever received. -/
theorem c3_witness :
    get_devicesModel demoValidCmds ["UPS ups1 \x22Test UPS\x22"] = .ok [("ups1", "Test UPS")] :=
  c3_no_begin_check demoValidCmds "UPS ups1 \x22Test UPS\x22" "ups1" "Test UPS"
    (by decide) (by decide) (by decide)

/- ----------------------------------------------------------------- -/
/- C6 — credential exchange during _connect.                          -/
/- ----------------------------------------------------------------- -/

/-- C6 (counterexample): the claim says a non-`OK` reply to a credential
tears the connection down so that no open transport handle remains; but
after `USERNAME admin` is answered `ERR`, `_connect` raises the wrapped
`PyNUT3Error` while the spawned child handle is still set (`some ()`),
because the `except` clause re-raises without closing or clearing
`self._child`. -/
theorem c6_cex :
    connectModel (some "admin") none ["ERR"] [] =
      (.error (.pynut3 "Something went wrong!"), some (), ["USERNAME admin"]) ∧
    (connectModel (some "admin") none ["ERR"] []).2.1 ≠ none := by
  decide

/-- C6 (amended): during connection setup each supplied credential is sent
as its own command, `USERNAME` first and `PASSWORD` second; a reply list
without a line equal to `OK` makes `_connect` raise a `PyNUT3Error` (the
original `LOGIN ERROR` is wrapped into `Something went wrong!` by the
surrounding `except` clause) — but the connection is NOT torn down: the
child handle remains `some ()` on every path. -/
theorem c6_connect_auth (l p : String) (pw : Option String) (lr pr : List String)
    (hl : l ≠ "") (hp : p ≠ "") :
    ("OK" ∉ lr →
      connectModel (some l) pw lr pr =
        (.error (.pynut3 "Something went wrong!"), some (), ["USERNAME " ++ l])) ∧
    ("OK" ∈ lr → "OK" ∉ pr →
      connectModel (some l) (some p) lr pr =
        (.error (.pynut3 "Something went wrong!"), some (),
          ["USERNAME " ++ l, "PASSWORD " ++ p])) ∧
    ("OK" ∈ lr → "OK" ∈ pr →
      connectModel (some l) (some p) lr pr =
        (.ok (), some (), ["USERNAME " ++ l, "PASSWORD " ++ p])) := by
  refine ⟨fun h1 => ?_, fun h1 h2 => ?_, fun h1 h2 => ?_⟩
  · simp [connectModel, connectPw, hl, hp, h1]
  · simp [connectModel, connectPw, hl, hp, h1, h2]
  · simp [connectModel, connectPw, hl, hp, h1, h2]

/-- C6 (witness): the amended theorem applied to a concrete rejected
`USERNAME` exchange. -/
theorem c6_witness :
    connectModel (some "user") none ["ERR ACCESS-DENIED"] [] =
      (.error (.pynut3 "Something went wrong!"), some (), ["USERNAME user"]) :=
  (c6_connect_auth "user" "x" none ["ERR ACCESS-DENIED"] [] (by decide) (by decide)).1
    (by decide)

/- ----------------------------------------------------------------- -/
/- C7 — the variable-map key invariant across update.                 -/
/- ----------------------------------------------------------------- -/

/-- Key list of the empty dictionary. -/
@[simp] theorem keysOf_nil {α : Type} : keysOf ([] : List (String × α)) = [] := rfl

/-- Key list of a dictionary with a leading entry. -/
@[simp] theorem keysOf_cons {α : Type} (p : String × α) (m : List (String × α)) :
    keysOf (p :: m) = p.1 :: keysOf m := rfl

/-- Replacing the value stored under a key never changes the key list. -/
theorem keysOf_setVal {α : Type} (m : List (String × α)) (k : String) (v : α) :
    keysOf (setVal m k v) = keysOf m := by
  induction m with
  | nil => rfl
  | cons p m ih =>
    obtain ⟨a, b⟩ := p
    by_cases h : a = k <;> simp [setVal, h, ih]

/-- The update loop of `update(device)` never changes the key list of the
stored variable map, whether it completes or stops with a `KeyError`. -/
theorem updateVarsLoop_keysOf (fresh : List (String × String × String)) :
    ∀ m, keysOf (updateVarsLoop fresh m).2 = keysOf m := by
  induction fresh with
  | nil => intro m; rfl
  | cons kv rest ih =>
    intro m
    obtain ⟨k, v⟩ := kv
    cases ha : alookup m k with
    | none => simp [updateVarsLoop, ha]
    | some w => simp [updateVarsLoop, ha, ih, keysOf_setVal]

/-- C7 (amended): `update(device)` never changes the key set of the
device's stored variable map: variables absent from the freshly fetched
`LIST VAR` response are retained with their old values, and a fresh
variable that is not already stored is never added (the loop aborts with
an untyped `KeyError` instead, see the counterexample). -/
theorem c7_update_keyset_invariant (valid : List String) (dev : String) (rec : DeviceRec)
    (response : List String) :
    keysOf ((updateModel valid dev rec response).2.vars) = keysOf rec.vars := by
  unfold updateModel
  cases hg : get_varsModel valid "VAR" dev response with
  | error e => simp
  | ok fresh =>
    have hk := updateVarsLoop_keysOf fresh rec.vars
    cases hl : updateVarsLoop fresh rec.vars with
    | mk e m =>
      rw [hl] at hk
      cases e <;> simp [hl] <;> exact hk

/-- C7 (counterexample): after `update` with a fresh `LIST VAR` response
containing only variable `a`, the stored map still contains the stale
variable `b` (the claim says it must be removed); and a fresh response
containing the new variable `c` does not add it but raises an untyped
`KeyError` instead. -/
theorem c7_cex :
    updateModel demoValidCmds "ups1" ⟨[], [("a", ("1", "r-")), ("b", ("2", "r-"))], []⟩
        ["BEGIN LIST VAR ups1", "VAR ups1 a \x223\x22", "END LIST VAR ups1"] =
      (none, ⟨[], [("a", ("3", "r-")), ("b", ("2", "r-"))], []⟩) ∧
    updateModel demoValidCmds "ups1" ⟨[], [("a", ("1", "r-"))], []⟩
        ["BEGIN LIST VAR ups1", "VAR ups1 c \x229\x22", "END LIST VAR ups1"] =
      (some (.keyError "c"), ⟨[], [("a", ("1", "r-"))], []⟩) := by
  decide

/- ----------------------------------------------------------------- -/
/- C8 — idempotence of update.                                        -/
/- ----------------------------------------------------------------- -/

/-- Looking up a different key is unaffected by `setVal`. -/
theorem alookup_setVal_ne {α : Type} (m : List (String × α)) (k j : String) (v : α)
    (h : j ≠ k) : alookup (setVal m k v) j = alookup m j := by
  induction m with
  | nil => rfl
  | cons q m ih =>
    obtain ⟨a, b⟩ := q
    by_cases hak : a = k
    · subst hak
      simp [setVal, alookup, Ne.symm h, ih]
    · by_cases haj : a = j <;> simp [setVal, alookup, hak, haj, h, ih]

/-- Looking up the overwritten key after `setVal` yields the new value,
provided the key was present. -/
theorem alookup_setVal_self {α : Type} (m : List (String × α)) (k : String) (v w : α)
    (h : alookup m k = some w) : alookup (setVal m k v) k = some v := by
  induction m with
  | nil => simp [alookup] at h
  | cons q m ih =>
    obtain ⟨a, b⟩ := q
    by_cases hak : a = k
    · subst hak
      simp [setVal, alookup]
    · simp [setVal, alookup, hak] at h ⊢
      exact ih h

/-- `setVal` on an absent key is the identity. -/
theorem setVal_absent {α : Type} (m : List (String × α)) (k : String) (v : α)
    (h : k ∉ keysOf m) : setVal m k v = m := by
  induction m with
  | nil => rfl
  | cons q m ih =>
    obtain ⟨a, b⟩ := q
    simp at h
    simp [setVal, Ne.symm h.1, ih h.2]

/-- Overwriting a key of a duplicate-free dictionary with the value it
already stores is the identity. -/
theorem setVal_self {α : Type} (m : List (String × α)) (k : String) (v : α)
    (hnd : (keysOf m).Nodup) (h : alookup m k = some v) : setVal m k v = m := by
  induction m with
  | nil => simp [alookup] at h
  | cons q m ih =>
    obtain ⟨a, b⟩ := q
    simp at hnd
    by_cases hak : a = k
    · subst hak
      simp [alookup] at h
      subst h
      simp [setVal]
      exact setVal_absent m a b hnd.1
    · simp [alookup, hak] at h
      simp [setVal, hak]
      exact ih hnd.2 h

/-- The update loop leaves lookups of keys outside the fresh response
unchanged. -/
theorem updateVarsLoop_alookup_outside (fresh : List (String × String × String)) :
    ∀ m j, j ∉ keysOf fresh → alookup (updateVarsLoop fresh m).2 j = alookup m j := by
  induction fresh with
  | nil => intro m j _; rfl
  | cons kv rest ih =>
    intro m j h
    obtain ⟨k, v⟩ := kv
    simp at h
    cases ha : alookup m k with
    | none => simp [updateVarsLoop, ha]
    | some w =>
      simp [updateVarsLoop, ha]
      rw [ih _ j h.2, alookup_setVal_ne _ _ _ _ h.1]

/-- Overwriting the value stored under one key leaves the key list of a
mapped dictionary unchanged. -/
theorem keysOf_map_upd {α : Type} (d : List (String × α)) (k : String) (v : α) :
    keysOf (d.map (fun p => if p.1 = k then (k, v) else p)) = keysOf d := by
  induction d with
  | nil => rfl
  | cons p m ih =>
    obtain ⟨a, b⟩ := p
    by_cases hak : a = k <;> simp [hak, ih]

/-- The dict built by a Python-style insertion keeps its key list free of
duplicates. -/
theorem nodup_keysOf_dictInsert {α : Type} (d : List (String × α)) (k : String) (v : α)
    (h : (keysOf d).Nodup) : (keysOf (dictInsert d k v)).Nodup := by
  unfold dictInsert
  split
  · rw [keysOf_map_upd]
    exact h
  · rename_i hc
    have hk : k ∉ keysOf d := by
      simp at hc
      simpa [keysOf] using hc
    have he : keysOf (d ++ [(k, v)]) = keysOf d ++ [k] := by simp [keysOf]
    rw [he]
    simp [List.nodup_append, h, hk]

/-- The dict built by the `_get_vars` loop has a duplicate-free key list. -/
theorem get_varsLoop_nodup (t : String) : ∀ (lines : List String) d m,
    get_varsLoop t lines d = .ok m → (keysOf d).Nodup → (keysOf m).Nodup := by
  intro lines
  induction lines with
  | nil =>
    intro d m h hd
    cases h
    exact hd
  | cons line rest ih =>
    intro d m h hd
    unfold get_varsLoop at h
    split at h
    · simp at h
    · split at h
      · simp at h
      · exact ih _ m h (nodup_keysOf_dictInsert d _ _ hd)

/-- A successful `_get_vars` call returns a dict with a duplicate-free key
list. -/
theorem get_varsModel_nodup (valid : List String) (sub dev : String)
    (response : List String) (fresh : List (String × String × String))
    (h : get_varsModel valid sub dev response = .ok fresh) : (keysOf fresh).Nodup := by
  unfold get_varsModel at h
  cases hc : cmdResult valid ("LIST " ++ sub ++ " " ++ dev) response with
  | error e => rw [hc] at h; simp [Bind.bind, Except.bind] at h
  | ok lines =>
    rw [hc] at h
    simp only [Bind.bind, Except.bind] at h
    exact get_varsLoop_nodup _ lines [] fresh h (by simp)

/-- Running the update loop a second time with the same fresh dict does not
change the stored map again: the loop is idempotent on duplicate-free
dictionaries. -/
theorem updateVarsLoop_idem (fresh : List (String × String × String)) :
    ∀ m r, (keysOf m).Nodup → (keysOf fresh).Nodup →
      updateVarsLoop fresh m = (none, r) → updateVarsLoop fresh r = (none, r) := by
  induction fresh with
  | nil =>
    intro m r _ _ h
    cases h
    rfl
  | cons kv rest ih =>
    intro m r hm hf h
    obtain ⟨k, v⟩ := kv
    simp at hf
    cases ha : alookup m k with
    | none => simp [updateVarsLoop, ha] at h
    | some w =>
      have h' : updateVarsLoop rest (setVal m k (v.1, w.2)) = (none, r) := by
        simpa [updateVarsLoop, ha] using h
      have hkeys : keysOf r = keysOf m := by
        have hx := updateVarsLoop_keysOf rest (setVal m k (v.1, w.2))
        rw [h'] at hx
        rw [hx, keysOf_setVal]
      have hndr : (keysOf r).Nodup := by rw [hkeys]; exact hm
      have har : alookup r k = some (v.1, w.2) := by
        have h1 := updateVarsLoop_alookup_outside rest (setVal m k (v.1, w.2)) k hf.1
        rw [h'] at h1
        rw [h1]
        exact alookup_setVal_self m k (v.1, w.2) w ha
      have hset : setVal r k (v.1, w.2) = r := setVal_self r k (v.1, w.2) hndr har
      have hrest : updateVarsLoop rest r = (none, r) := by
        apply ih (setVal m k (v.1, w.2)) r _ hf.2 h'
        rw [keysOf_setVal]
        exact hm
      simp [updateVarsLoop, har, hset, hrest]

/-- C8 (amended): calling `update(device)` a second time while the server's
`LIST VAR` response is unchanged leaves the device's stored variable values
identical to after the first call, and in fact leaves the entire device
record unchanged: the record built by `__init__` has only the fields
`commands`, `vars` and `rw` — there is no refresh-timestamp field, so no
field at all differs between the two calls. -/
theorem c8_update_idempotent (valid : List String) (dev : String) (rec rec1 : DeviceRec)
    (response : List String) (hnd : (keysOf rec.vars).Nodup)
    (h1 : updateModel valid dev rec response = (none, rec1)) :
    updateModel valid dev rec1 response = (none, rec1) := by
  obtain ⟨cs, vs, rs⟩ := rec
  unfold updateModel at h1 ⊢
  split at h1
  · simp at h1
  · rename_i fresh heq
    have hfnd : (keysOf fresh).Nodup := get_varsModel_nodup valid "VAR" dev response fresh heq
    split at h1
    · rename_i m heq2
      simp at h1
      subst h1
      have hidem := updateVarsLoop_idem fresh vs m hnd hfnd heq2
      simp [hidem]
    · simp at h1

/-- C8 (counterexample): the claim says the refresh timestamp is the field
of the device record that differs between the two calls; concretely, after
a second `update` with the unchanged server response the entire record —
commands, variable map, and read-write map — is equal to the record after
the first call: no field differs, and the record has no timestamp field at
all. -/
theorem c8_cex :
    updateModel demoValidCmds "ups1" ⟨["test.x"], [("a", ("1", "r-"))], [("b", ("5", "rw"))]⟩
        ["BEGIN LIST VAR ups1", "VAR ups1 a \x222\x22", "END LIST VAR ups1"] =
      (none, ⟨["test.x"], [("a", ("2", "r-"))], [("b", ("5", "rw"))]⟩) ∧
    updateModel demoValidCmds "ups1" ⟨["test.x"], [("a", ("2", "r-"))], [("b", ("5", "rw"))]⟩
        ["BEGIN LIST VAR ups1", "VAR ups1 a \x222\x22", "END LIST VAR ups1"] =
      (none, ⟨["test.x"], [("a", ("2", "r-"))], [("b", ("5", "rw"))]⟩) := by
  decide

/-- C8 (witness): the amended idempotence theorem applied to a concrete
device record and an unchanged server response. -/
theorem c8_witness :
    updateModel demoValidCmds "ups1" ⟨["test.x"], [("a", ("2", "r-"))], [("b", ("5", "rw"))]⟩
        ["BEGIN LIST VAR ups1", "VAR ups1 a \x222\x22", "END LIST VAR ups1"] =
      (none, ⟨["test.x"], [("a", ("2", "r-"))], [("b", ("5", "rw"))]⟩) :=
  c8_update_idempotent demoValidCmds "ups1"
    ⟨["test.x"], [("a", ("1", "r-"))], [("b", ("5", "rw"))]⟩
    ⟨["test.x"], [("a", ("2", "r-"))], [("b", ("5", "rw"))]⟩
    ["BEGIN LIST VAR ups1", "VAR ups1 a \x222\x22", "END LIST VAR ups1"]
    (by decide) (by decide)

/- ----------------------------------------------------------------- -/
/- C9 — access-mode tagging of the variable maps.                     -/
/- ----------------------------------------------------------------- -/

/-- Every member of a Python-style dict insertion is an original entry or
the inserted pair. -/
theorem mem_dictInsert {α : Type} (d : List (String × α)) (k : String) (v : α)
    (e : String × α) (he : e ∈ dictInsert d k v) : e ∈ d ∨ e = (k, v) := by
  unfold dictInsert at he
  split at he
  · obtain ⟨p, hp, hpe⟩ := List.mem_map.mp he
    by_cases h : p.1 = k
    · right
      rw [if_pos h] at hpe
      exact hpe.symm
    · left
      rw [if_neg h] at hpe
      exact hpe ▸ hp
  · rcases List.mem_append.mp he with h | h
    · left
      exact h
    · right
      simpa using h

/-- Every entry built by the `_get_vars` loop carries the access tag the
loop was started with. -/
theorem get_varsLoop_tags (t : String) : ∀ (lines : List String) d m,
    get_varsLoop t lines d = .ok m → (∀ e ∈ d, e.2.2 = t) → ∀ e ∈ m, e.2.2 = t := by
  intro lines
  induction lines with
  | nil =>
    intro d m h hd
    cases h
    exact hd
  | cons line rest ih =>
    intro d m h hd
    unfold get_varsLoop at h
    split at h
    · simp at h
    · split at h
      · simp at h
      · refine ih _ m h ?_
        intro e he
        rcases mem_dictInsert _ _ _ e he with h1 | h1
        · exact hd e h1
        · rw [h1]

/-- Every entry of a successful `_get_vars` result carries the tag derived
from the sub-command: `rw` for `LIST RW`, `r-` otherwise. -/
theorem get_varsModel_tags (valid : List String) (sub dev : String) (response : List String)
    (m : List (String × String × String)) (t : String)
    (h : get_varsModel valid sub dev response = .ok m)
    (ht : (if sub = "RW" then "rw" else "r-") = t) :
    ∀ e ∈ m, e.2.2 = t := by
  unfold get_varsModel at h
  cases hc : cmdResult valid ("LIST " ++ sub ++ " " ++ dev) response with
  | error e =>
    rw [hc] at h
    simp [Bind.bind, Except.bind] at h
  | ok lines =>
    rw [hc] at h
    simp only [Bind.bind, Except.bind] at h
    rw [ht] at h
    exact get_varsLoop_tags t lines [] m h (by simp)

/-- C9 (counterexample): the claim says the device record contains a single
merged variable map in which a variable returned by `LIST RW` is tagged
read-write; but `__init__` builds two separate maps, and a variable that
appears in both `LIST VAR` and `LIST RW` is stored twice — tagged `r-` in
the record's `vars` map and `rw` in its separate `rw` map — with no merge
ever performed. -/
theorem c9_cex :
    buildDeviceRec demoValidCmds "ups1"
        ["BEGIN LIST CMD ups1", "CMD ups1 test.battery.start", "END LIST CMD ups1"]
        ["BEGIN LIST VAR ups1", "VAR ups1 battery.charge \x22100\x22", "END LIST VAR ups1"]
        ["BEGIN LIST RW ups1", "RW ups1 battery.charge \x22100\x22", "END LIST RW ups1"] =
      .ok ⟨["test.battery.start"], [("battery.charge", ("100", "r-"))],
        [("battery.charge", ("100", "rw"))]⟩ ∧
    alookup (⟨["test.battery.start"], [("battery.charge", ("100", "r-"))],
        [("battery.charge", ("100", "rw"))]⟩ : DeviceRec).vars "battery.charge" =
      some ("100", "r-") ∧
    alookup (⟨["test.battery.start"], [("battery.charge", ("100", "r-"))],
        [("battery.charge", ("100", "rw"))]⟩ : DeviceRec).rw "battery.charge" =
      some ("100", "rw") := by
  decide

/-- C9 (amended): the record built for a device holds two separate variable
maps rather than one merged map: every entry of the `vars` map (from
`LIST VAR`) is tagged `r-` and every entry of the `rw` map (from
`LIST RW`) is tagged `rw`; no entry of `vars` is ever tagged with the
read-write mode, even when the same variable is returned by `LIST RW`. -/
theorem c9_access_tags (valid : List String) (dev : String)
    (cresp vresp rresp : List String) (rec : DeviceRec)
    (h : buildDeviceRec valid dev cresp vresp rresp = .ok rec) :
    rec.vars.all (fun e => e.2.2 == "r-") = true ∧
    rec.rw.all (fun e => e.2.2 == "rw") = true := by
  unfold buildDeviceRec at h
  simp only [Bind.bind, Except.bind] at h
  split at h
  · simp at h
  · rename_i cs heqc
    split at h
    · simp at h
    · rename_i vs heqv
      split at h
      · simp at h
      · rename_i rs heqr
        simp at h
        subst h
        constructor
        · refine List.all_eq_true.mpr ?_
          intro e he
          have ht := get_varsModel_tags valid "VAR" dev vresp vs "r-" heqv rfl e he
          simpa using ht
        · refine List.all_eq_true.mpr ?_
          intro e he
          have ht := get_varsModel_tags valid "RW" dev rresp rs "rw" heqr rfl e he
          simpa using ht

/-- C9 (witness): the amended tagging theorem applied to the concrete
session build of the counterexample. -/
theorem c9_witness :
    ((⟨["test.battery.start"], [("battery.charge", ("100", "r-"))],
        [("battery.charge", ("100", "rw"))]⟩ : DeviceRec).vars.all
      (fun e => e.2.2 == "r-")) = true ∧
    ((⟨["test.battery.start"], [("battery.charge", ("100", "r-"))],
        [("battery.charge", ("100", "rw"))]⟩ : DeviceRec).rw.all
      (fun e => e.2.2 == "rw")) = true :=
  c9_access_tags demoValidCmds "ups1"
    ["BEGIN LIST CMD ups1", "CMD ups1 test.battery.start", "END LIST CMD ups1"]
    ["BEGIN LIST VAR ups1", "VAR ups1 battery.charge \x22100\x22", "END LIST VAR ups1"]
    ["BEGIN LIST RW ups1", "RW ups1 battery.charge \x22100\x22", "END LIST RW ups1"]
    ⟨["test.battery.start"], [("battery.charge", ("100", "r-"))],
      [("battery.charge", ("100", "rw"))]⟩ (by decide)
